import Mathlib

/-!
Verification of the roboflow/inferenceSampleApp repository.

The development shallowly embeds the two source files:

* `server.js` — the Express proxy server.  The `POST /api/init-webrtc`
  handler and the `GET /api/health` handler are pure functions of the
  request body, the process environment, and the vendor call outcome
  (the vendor SDK call `initialise_webrtc_worker` is modelled as a
  function parameter, since its body lives outside this repository).
* the frontend script (`src/unnamed/part_000`) — the functions
  `populateResolutions`, `populateFrameRates`, `start` and `stop`,
  embedded as pure functions over an explicit UI state, with the
  awaited browser/SDK outcomes passed in as parameters.

JavaScript field access is modelled with `Option` (`none` is
`undefined`) and JavaScript truthiness is made explicit.
-/

set_option autoImplicit false

namespace SampleApp

/-- A JSON-like JavaScript value, as carried in request and response
bodies.  Numbers are modelled as rationals (the values that occur in
this program are exactly representable). -/
inductive JsVal where
  | null : JsVal
  | bool : Bool → JsVal
  | num : ℚ → JsVal
  | str : String → JsVal
  | arr : List JsVal → JsVal
  | obj : List (String × JsVal) → JsVal

/-- JavaScript truthiness of a defined value. -/
def JsVal.truthy : JsVal → Bool
  | .null => false
  | .bool b => b
  | .num q => decide (q ≠ 0)
  | .str s => decide (s ≠ "")
  | .arr _ => true
  | .obj _ => true

/-- Truthiness of a possibly-undefined value (`none` is `undefined`). -/
def jsTruthy : Option JsVal → Bool
  | none => false
  | some v => v.truthy

/-- Truthiness of a possibly-undefined environment string: `undefined`
and the empty string are falsy. -/
def strTruthy : Option String → Bool
  | none => false
  | some s => decide (s ≠ "")

/-- The `offer` object of the request body (`server.js`, request
validation): both fields may be absent. -/
structure OfferObj where
  sdp : Option JsVal
  type : Option JsVal

/-- The `wrtcparams` object of the request body (`server.js`).  The
handler reads `workflowSpec` during validation and the five auxiliary
fields when building the vendor call; `workspaceName`/`workflowId` are
carried by the frontend contract but never read by the server. -/
structure WrtcParams where
  workflowSpec : Option JsVal
  workspaceName : Option JsVal
  workflowId : Option JsVal
  imageInputName : Option JsVal
  streamOutputNames : Option JsVal
  dataOutputNames : Option JsVal
  workflowParameters : Option JsVal
  threadPoolWorkers : Option JsVal

/-- The body of a `POST /api/init-webrtc` request,
`const { offer, wrtcparams } = req.body`. -/
structure InitRequest where
  offer : Option OfferObj
  wrtcparams : Option WrtcParams

/-- The process environment variables read by `server.js`. -/
structure Env where
  ROBOFLOW_API_KEY : Option String
  ROBOFLOW_SERVER_URL : Option String

/-- The `config` block passed to `client.initialise_webrtc_worker`
(`server.js` lines 79-85): the auxiliary fields are copied from
`wrtcparams` whether or not they are present. -/
structure VendorConfig where
  imageInputName : Option JsVal
  streamOutputNames : Option JsVal
  dataOutputNames : Option JsVal
  workflowParameters : Option JsVal
  threadPoolWorkers : Option JsVal

/-- Everything `server.js` hands to the vendor SDK: the client handle
arguments of `InferenceHTTPClient.init` and the argument object of
`initialise_webrtc_worker`. -/
structure VendorCall where
  apiKey : String
  serverUrl : Option String
  offer : OfferObj
  workflowSpec : Option JsVal
  config : VendorConfig

/-- A JavaScript error as observed by the catch block: only its
(possibly absent) `message` field is read. -/
structure JsError where
  message : Option String

/-- An HTTP response produced with `res.status(..).json(..)` or
`res.json(..)` (the latter has status 200). -/
structure HttpResponse where
  status : ℕ
  body : JsVal

/-- `{ error: msg }` response bodies. -/
def errorBody (msg : String) : JsVal :=
  .obj [("error", .str msg)]

/-- The 400 response of the offer validation step. -/
def missingOfferResponse : HttpResponse :=
  ⟨400, errorBody "Missing required field: offer with sdp and type"⟩

/-- The 400 response of the workflow-parameter validation step. -/
def missingWorkflowSpecResponse : HttpResponse :=
  ⟨400, errorBody "Missing required field: wrtcparams.workflowSpec"⟩

/-- The 500 response for a missing `ROBOFLOW_API_KEY`. -/
def apiKeyNotConfiguredResponse : HttpResponse :=
  ⟨500, errorBody "Server configuration error: API key not configured"⟩

/-- The fallback error string of the catch block: the handler sends
`error.message` when it is truthy and this string otherwise. -/
def vendorFallbackMessage : String :=
  "Failed to initialize WebRTC worker"

/-- The `POST /api/init-webrtc` handler (`server.js` lines 38-102) as a
pure function of the environment, the vendor SDK call (a parameter,
`Except` models promise rejection) and the request body. -/
def initWebrtcHandler (env : Env)
    (initialiseWebrtcWorker : VendorCall → Except JsError JsVal)
    (req : InitRequest) : HttpResponse :=
  match req.offer with
  | none => missingOfferResponse
  | some offer =>
    if !(jsTruthy offer.sdp) || !(jsTruthy offer.type) then
      missingOfferResponse
    else
      match req.wrtcparams with
      | none => missingWorkflowSpecResponse
      | some wrtcparams =>
        if !(jsTruthy wrtcparams.workflowSpec) then
          missingWorkflowSpecResponse
        else
          match env.ROBOFLOW_API_KEY with
          | none => apiKeyNotConfiguredResponse
          | some apiKey =>
            if apiKey = "" then
              apiKeyNotConfiguredResponse
            else
              match initialiseWebrtcWorker
                  { apiKey := apiKey
                    serverUrl := env.ROBOFLOW_SERVER_URL
                    offer := offer
                    workflowSpec := wrtcparams.workflowSpec
                    config :=
                      { imageInputName := wrtcparams.imageInputName
                        streamOutputNames := wrtcparams.streamOutputNames
                        dataOutputNames := wrtcparams.dataOutputNames
                        workflowParameters := wrtcparams.workflowParameters
                        threadPoolWorkers := wrtcparams.threadPoolWorkers } } with
              | .ok answer => ⟨200, answer⟩
              | .error error =>
                ⟨500, errorBody
                  (match error.message with
                   | some m => if m = "" then vendorFallbackMessage else m
                   | none => vendorFallbackMessage)⟩

/-- The condition of the first validation step,
`!offer || !offer.sdp || !offer.type`. -/
def offerInvalid (req : InitRequest) : Bool :=
  match req.offer with
  | none => true
  | some offer => !(jsTruthy offer.sdp) || !(jsTruthy offer.type)

/-- The condition of the second validation step,
`!wrtcparams || !wrtcparams.workflowSpec`. -/
def workflowInvalid (req : InitRequest) : Bool :=
  match req.wrtcparams with
  | none => true
  | some wrtcparams => !(jsTruthy wrtcparams.workflowSpec)

/-- A request passes both validation steps. -/
def requestValid (req : InitRequest) : Bool :=
  !(offerInvalid req) && !(workflowInvalid req)

/-- The `GET /api/health` handler (`server.js` lines 107-117). -/
def healthHandler (env : Env) : HttpResponse :=
  let hasApiKey := strTruthy env.ROBOFLOW_API_KEY
  ⟨200, .obj
    [("status", .str "ok"),
     ("apiKeyConfigured", .bool hasApiKey),
     ("message", .str
       (if hasApiKey then "Server is ready"
        else "Warning: ROBOFLOW_API_KEY not configured"))]⟩

/-- Look a key up in an object response body. -/
def lookupField (r : HttpResponse) (k : String) : Option JsVal :=
  match r.body with
  | .obj l => (l.find? (fun p => p.1 == k)).map (fun p => p.2)
  | _ => none

/-- Model of `String.prototype.includes`. -/
def jsIncludes (s pat : String) : Bool :=
  decide ((s.splitOn pat).length ≠ 1)

/-! ### Frontend: camera capability handling (`src/unnamed/part_000`) -/

/-- A capability range such as `capabilities.width`: either bound may be
absent. -/
structure CapRange where
  min : Option ℚ
  max : Option ℚ
  deriving DecidableEq

/-- The fields of `track.getCapabilities()` read by the frontend. -/
structure Capabilities where
  width : Option CapRange
  height : Option CapRange
  frameRate : Option CapRange
  deriving DecidableEq

/-- `v || d` on a possibly-undefined number: `undefined` and `0` fall
back to the default. -/
def jsOrNum (v : Option ℚ) (d : ℚ) : ℚ :=
  match v with
  | none => d
  | some x => if x = 0 then d else x

/-- A resolution option offered in the resolution select element. -/
structure Resolution where
  w : ℚ
  h : ℚ
  deriving DecidableEq

/-- The `commonResolutions` preset table of `populateResolutions`. -/
def commonResolutions : List Resolution :=
  [⟨3840, 2160⟩, ⟨2560, 1440⟩, ⟨1920, 1080⟩, ⟨1280, 720⟩,
   ⟨854, 480⟩, ⟨640, 480⟩, ⟨640, 360⟩, ⟨320, 240⟩]

/-- `populateResolutions` (`src/unnamed/part_000` lines 247-303): the
list of resolution options appended to the resolution select element.
The trailing selection of a current or default value only picks among
these options and adds none. -/
def populateResolutions (capabilities : Capabilities) : List Resolution :=
  let maxW := jsOrNum (capabilities.width.bind CapRange.max) 1920
  let maxH := jsOrNum (capabilities.height.bind CapRange.max) 1080
  let minW := jsOrNum (capabilities.width.bind CapRange.min) 320
  let minH := jsOrNum (capabilities.height.bind CapRange.min) 240
  let availableResolutions := commonResolutions.filter
    (fun res => decide (minW ≤ res.w ∧ res.w ≤ maxW ∧ minH ≤ res.h ∧ res.h ≤ maxH))
  let maxIsStandard := availableResolutions.any
    (fun r => decide (r.w = maxW ∧ r.h = maxH))
  let availableResolutions :=
    if !maxIsStandard && decide (maxW ≠ 0) && decide (maxH ≠ 0) then
      ⟨maxW, maxH⟩ :: availableResolutions
    else availableResolutions
  if availableResolutions.isEmpty then [⟨640, 480⟩] else availableResolutions

/-- The `commonFps` preset table of `populateFrameRates`. -/
def commonFps : List ℚ :=
  [60, 30, 24, 15, 10]

/-- One step of the descending sort `availableFps.sort((a, b) => b - a)`. -/
def insertDescFps (x : ℚ) : List ℚ → List ℚ
  | [] => [x]
  | y :: ys => if y ≤ x then x :: y :: ys else y :: insertDescFps x ys

/-- The descending sort `availableFps.sort((a, b) => b - a)` (insertion
sort; any comparison sort produces the same element membership). -/
def sortDesc (l : List ℚ) : List ℚ :=
  l.foldr insertDescFps []

/-- `populateFrameRates` (`src/unnamed/part_000` lines 308-347): the
list of fps options appended to the fps select element.  `Math.floor`
is the mathematical floor on the (exactly representable) values in
scope. -/
def populateFrameRates (capabilities : Capabilities) : List ℚ :=
  let maxFps := jsOrNum (capabilities.frameRate.bind CapRange.max) 30
  let minFps := jsOrNum (capabilities.frameRate.bind CapRange.min) 1
  let availableFps := commonFps.filter
    (fun fps => decide (minFps ≤ fps ∧ fps ≤ maxFps))
  let availableFps :=
    if !(decide (((Rat.floor maxFps : ℤ) : ℚ) ∈ availableFps)) && decide (0 < maxFps) then
      ((Rat.floor maxFps : ℤ) : ℚ) :: availableFps
    else availableFps
  let availableFps := sortDesc availableFps
  if availableFps.isEmpty then [30] else availableFps

/-! ### Frontend: UI start/stop state machine (`src/unnamed/part_000`) -/

/-- An abstract vendor SDK connection object. -/
structure Connection where
  id : ℕ
  deriving DecidableEq

/-- An abstract browser media stream. -/
structure MediaStream where
  id : ℕ
  deriving DecidableEq

/-- The mutable UI state touched by `start` and `stop`: the module-level
`activeConnection` and `dataMessageCount` variables and the DOM
properties the two functions write. -/
structure UIState where
  activeConnection : Option Connection
  startBtnDisabled : Bool
  stopBtnDisabled : Bool
  statusText : String
  videoSrcObject : Option MediaStream
  videoControls : Bool
  dataMessageCount : ℕ
  dataCountText : String
  dataPreviewText : String
  deriving DecidableEq

/-- The catch block of `start`: set an error status (with a special
hint for API-key errors), re-enable the start button and clear the
active connection. -/
def applyConnectError (message : String) (s : UIState) : UIState :=
  let s :=
    if jsIncludes message "API key" then
      { s with statusText := "Error: Server API key not configured" }
    else
      { s with statusText := "Error: " ++ message }
  { s with startBtnDisabled := false, activeConnection := none }

/-- `start` (`src/unnamed/part_000` lines 509-566) as a state
transformer.  The awaited outcomes of
`connectWebcamToRoboflowWebRTC` and `connection.remoteStream()` are
parameters (`Except` models promise rejection); a failed
`videoEl.play()` is caught and only logged, so it does not appear in
the state.  The returned flag records whether the connect sequence was
performed. -/
def start (connectOutcome : Except String Connection)
    (remoteStreamOutcome : Except String MediaStream)
    (s : UIState) : UIState × Bool :=
  if s.activeConnection.isSome then
    (s, false)
  else
    let s1 := { s with startBtnDisabled := true, statusText := "Connecting..." }
    match connectOutcome with
    | .error message => (applyConnectError message s1, true)
    | .ok connection =>
      let s2 := { s1 with activeConnection := some connection }
      match remoteStreamOutcome with
      | .error message => (applyConnectError message s2, true)
      | .ok stream =>
        ({ s2 with
            videoSrcObject := some stream
            videoControls := false
            statusText := "Connected - Processing video"
            stopBtnDisabled := false }, true)

/-- `stop` (`src/unnamed/part_000` lines 571-596) as a state
transformer.  The outcome of `activeConnection.cleanup()` is a
parameter; a rejection is caught and only logged, and the `finally`
block resets the UI in every case. -/
def stop (cleanupOutcome : Except String Unit) (s : UIState) : UIState :=
  if s.activeConnection.isNone then
    s
  else
    let s1 := { s with stopBtnDisabled := true, statusText := "Stopping..." }
    let _ := cleanupOutcome
    { s1 with
        activeConnection := none
        videoSrcObject := none
        startBtnDisabled := false
        stopBtnDisabled := true
        statusText := "Idle"
        dataMessageCount := 0
        dataCountText := "0"
        dataPreviewText := "" }

/-! ### Auxiliary definitions used in the statements -/

/-- Encode a possibly-undefined value so that forwarded-as-`undefined`
auxiliary fields are observable in a probe response. -/
def encodeOpt : Option JsVal → JsVal
  | none => .str "undefined"
  | some v => .arr [v]

/-- Encode the auxiliary `config` block of a vendor call. -/
def configProbe (c : VendorConfig) : JsVal :=
  .arr [encodeOpt c.imageInputName, encodeOpt c.streamOutputNames,
    encodeOpt c.dataOutputNames, encodeOpt c.workflowParameters,
    encodeOpt c.threadPoolWorkers]

/-! ### Concrete sample values -/

/-- A well-formed offer. -/
def offerDemo : OfferObj := ⟨some (.str "v=0"), some (.str "offer")⟩

/-- Workflow parameters with a workflow spec and no auxiliary fields. -/
def wrtcparamsDemo : WrtcParams := ⟨some (.obj []), none, none, none, none, none, none, none⟩

/-- A request that passes both validation steps. -/
def reqDemo : InitRequest := ⟨some offerDemo, some wrtcparamsDemo⟩

/-- An environment with the credential configured. -/
def envDemo : Env := ⟨some "secret-key", none⟩

/-- An environment with no credential. -/
def envNoKey : Env := ⟨none, none⟩

/-- A vendor session answer of the documented shape. -/
def answerDemo : JsVal :=
  .obj [("sdp", .str "v=0 answer"), ("type", .str "answer"),
    ("context", .obj [("request_id", .str "req-1"), ("pipeline_id", .str "pipe-1")])]

/-- Workflow parameters that identify the workflow by workspace name
and workflow id, with no `workflowSpec`. -/
def wpWorkspaceOnly : WrtcParams :=
  ⟨none, some (.str "my-workspace"), some (.str "my-workflow"), none, none, none, none, none⟩

/-- A request with a valid offer whose workflow parameters carry
`workspaceName` and `workflowId` but no `workflowSpec`. -/
def reqWorkspaceOnly : InitRequest := ⟨some offerDemo, some wpWorkspaceOnly⟩

/-- A capability report whose frame-rate range is fractional:
29.5 to 29.75 fps. -/
def capsFractional : Capabilities :=
  ⟨some ⟨some 320, some 1920⟩, some ⟨some 240, some 1080⟩,
   some ⟨some (59/2), some (119/4)⟩⟩

/-- An ordinary capability report with integral bounds. -/
def capsNice : Capabilities :=
  ⟨some ⟨some 320, some 1920⟩, some ⟨some 240, some 1080⟩,
   some ⟨some 1, some 30⟩⟩

/-- A UI state with an active connection. -/
def uiConnected : UIState :=
  ⟨some ⟨1⟩, true, false, "Connected - Processing video", some ⟨7⟩, false, 3, "3", "data"⟩

/-- The idle UI state. -/
def uiIdle : UIState := ⟨none, false, true, "Idle", none, false, 0, "0", ""⟩

/-! ### Helper lemmas -/

theorem requestValid_iff (req : InitRequest) :
    requestValid req = true ↔
      ∃ offer wrtcparams, req.offer = some offer ∧ req.wrtcparams = some wrtcparams ∧
        jsTruthy offer.sdp = true ∧ jsTruthy offer.type = true ∧
        jsTruthy wrtcparams.workflowSpec = true := by
  rcases req with ⟨offer, wrtcparams⟩
  cases offer <;> cases wrtcparams <;>
    simp [requestValid, offerInvalid, workflowInvalid, and_assoc]

theorem strTruthy_iff (o : Option String) :
    strTruthy o = true ↔ ∃ s, o = some s ∧ s ≠ "" := by
  cases o <;> simp [strTruthy]

theorem handler_invalid_status (env : Env) (vendor : VendorCall → Except JsError JsVal)
    (req : InitRequest) (h : requestValid req = false) :
    (initWebrtcHandler env vendor req).status = 400 := by
  simp only [requestValid, Bool.and_eq_false_iff, Bool.not_eq_false'] at h
  rcases req with ⟨offer, wrtcparams⟩
  rcases h with h | h
  · cases offer with
    | none => simp [initWebrtcHandler, missingOfferResponse]
    | some o =>
      simp only [offerInvalid] at h
      simp [initWebrtcHandler, h, missingOfferResponse]
  · cases offer with
    | none => simp [initWebrtcHandler, missingOfferResponse]
    | some o =>
      by_cases hOff : !(jsTruthy o.sdp) || !(jsTruthy o.type)
      · simp [initWebrtcHandler, hOff, missingOfferResponse]
      · cases wrtcparams with
        | none => simp [initWebrtcHandler, hOff, missingWorkflowSpecResponse]
        | some wp =>
          simp only [workflowInvalid] at h
          simp [initWebrtcHandler, hOff, h, missingWorkflowSpecResponse]

theorem handler_valid_status_ne_400 (env : Env) (vendor : VendorCall → Except JsError JsVal)
    (req : InitRequest) (h : requestValid req = true) :
    (initWebrtcHandler env vendor req).status ≠ 400 := by
  obtain ⟨offer, wrtcparams, ho, hw, h1, h2, h3⟩ := (requestValid_iff req).mp h
  cases hk : env.ROBOFLOW_API_KEY with
  | none => simp [initWebrtcHandler, ho, hw, h1, h2, h3, hk, apiKeyNotConfiguredResponse]
  | some k =>
    by_cases hke : k = ""
    · simp [initWebrtcHandler, ho, hw, h1, h2, h3, hk, hke, apiKeyNotConfiguredResponse]
    · simp only [initWebrtcHandler, ho, hw, h1, h2, h3, hk, hke, Bool.not_true,
        Bool.or_self, Bool.false_eq_true, if_false, if_neg]
      split <;> simp_all

theorem mem_insertDescFps {a x : ℚ} {l : List ℚ} :
    a ∈ insertDescFps x l ↔ a = x ∨ a ∈ l := by
  induction l with
  | nil => simp [insertDescFps]
  | cons y ys ih =>
    simp only [insertDescFps]
    split
    · simp
    · simp [ih]
      tauto

theorem mem_sortDesc {a : ℚ} {l : List ℚ} : a ∈ sortDesc l ↔ a ∈ l := by
  induction l with
  | nil => simp [sortDesc]
  | cons y ys ih =>
    simp only [sortDesc, List.foldr_cons]
    rw [show List.foldr insertDescFps [] ys = sortDesc ys from rfl]
    simp [mem_insertDescFps, ih]

theorem insertDescFps_ne_nil (x : ℚ) (l : List ℚ) : insertDescFps x l ≠ [] := by
  cases l with
  | nil => simp [insertDescFps]
  | cons y ys =>
    simp only [insertDescFps]
    split <;> simp

theorem sortDesc_eq_nil_iff {l : List ℚ} : sortDesc l = [] ↔ l = [] := by
  cases l with
  | nil => simp [sortDesc]
  | cons y ys =>
    simp only [sortDesc, List.foldr_cons]
    constructor
    · intro h
      exact absurd h (insertDescFps_ne_nil y _)
    · intro h
      exact absurd h (by simp)

theorem le_jsOrNum {x d : ℚ} (hd : 0 ≤ d) : x ≤ jsOrNum (some x) d := by
  simp only [jsOrNum]
  split
  · next h => rw [h]; exact hd
  · exact le_rfl

theorem jsOrNum_of_ne {x : ℚ} (d : ℚ) (hx : x ≠ 0) : jsOrNum (some x) d = x := by
  simp [jsOrNum, hx]

theorem rat_cast_floor_le (q : ℚ) : ((Rat.floor q : ℤ) : ℚ) ≤ q :=
  Rat.le_floor.mp le_rfl

theorem rat_floor_119_4 : Rat.floor ((119 : ℚ)/4) = 29 := by
  rw [Rat.floor_def', ← Rat.floor_def, Int.floor_eq_iff]
  norm_num

theorem populateFrameRates_capsFractional : populateFrameRates capsFractional = [29] := by
  simp only [populateFrameRates, capsFractional, commonFps, jsOrNum, sortDesc]
  norm_num [rat_floor_119_4]
  simp [insertDescFps]

theorem populateResolutions_capsNice :
    populateResolutions capsNice =
      [⟨1920, 1080⟩, ⟨1280, 720⟩, ⟨854, 480⟩, ⟨640, 480⟩, ⟨640, 360⟩, ⟨320, 240⟩] := by
  simp only [populateResolutions, capsNice, commonResolutions, jsOrNum]
  norm_num

theorem rat_floor_30 : Rat.floor (30 : ℚ) = 30 := by
  rw [Rat.floor_def', ← Rat.floor_def, Int.floor_eq_iff]
  norm_num

theorem populateFrameRates_capsNice : populateFrameRates capsNice = [30, 24, 15, 10] := by
  simp only [populateFrameRates, capsNice, commonFps, jsOrNum, sortDesc]
  norm_num [rat_floor_30]
  simp [insertDescFps]
  norm_num
  simp

/-! ### Claims -/

/-- Claim C1, counterexample.  The claim asserts that a request whose
workflow parameters contain both `workspaceName` and `workflowId` but
no `workflowSpec` passes the workflow-parameter validation step and is
not rejected with 400.  On the code this is false: the handler checks
`!wrtcparams || !wrtcparams.workflowSpec` only, so the request below —
valid offer, truthy `workspaceName` and `workflowId`, absent
`workflowSpec`, configured credential — is rejected with the 400
workflow-parameter error. -/
theorem c1_workspace_pair_rejected_counterexample :
    reqWorkspaceOnly.wrtcparams = some wpWorkspaceOnly
    ∧ jsTruthy wpWorkspaceOnly.workspaceName = true
    ∧ jsTruthy wpWorkspaceOnly.workflowId = true
    ∧ wpWorkspaceOnly.workflowSpec = none
    ∧ offerInvalid reqWorkspaceOnly = false
    ∧ strTruthy envDemo.ROBOFLOW_API_KEY = true
    ∧ initWebrtcHandler envDemo (fun _ => .ok answerDemo) reqWorkspaceOnly
        = missingWorkflowSpecResponse
    ∧ missingWorkflowSpecResponse.status = 400 :=
  ⟨rfl, rfl, rfl, rfl, rfl, rfl, rfl, rfl⟩

/-- Claim C1, amended.  For every request with a valid offer, the
workflow-parameter validation step returns the 400
`wrtcparams.workflowSpec` error exactly when the workflow parameters
are absent or their `workflowSpec` field is absent (or falsy); in
particular a request whose workflow parameters contain both
`workspaceName` and `workflowId` but no `workflowSpec` is rejected
with 400. -/
theorem c1_workflow_validation_amended (env : Env)
    (vendor : VendorCall → Except JsError JsVal) (req : InitRequest)
    (hoffer : offerInvalid req = false) :
    initWebrtcHandler env vendor req = missingWorkflowSpecResponse ↔
      workflowInvalid req = true := by
  rcases req with ⟨offer, wrtcparams⟩
  cases offer with
  | none => simp [offerInvalid] at hoffer
  | some o =>
    simp only [offerInvalid, Bool.or_eq_false_iff, Bool.not_eq_false'] at hoffer
    constructor
    · intro hresp
      by_contra hwf
      cases wrtcparams with
      | none => simp [workflowInvalid] at hwf
      | some wp =>
        simp only [workflowInvalid, Bool.not_eq_true'] at hwf
        rw [Bool.not_eq_false] at hwf
        cases hk : env.ROBOFLOW_API_KEY with
        | none =>
          simp [initWebrtcHandler, hoffer.1, hoffer.2, hwf, hk,
            apiKeyNotConfiguredResponse, missingWorkflowSpecResponse] at hresp
        | some k =>
          by_cases hke : k = ""
          · simp [initWebrtcHandler, hoffer.1, hoffer.2, hwf, hk, hke,
              apiKeyNotConfiguredResponse, missingWorkflowSpecResponse] at hresp
          · simp only [initWebrtcHandler, hoffer.1, hoffer.2, hwf, hk, hke, Bool.not_true,
              Bool.or_self, Bool.false_eq_true, if_false, if_neg] at hresp
            split at hresp
            · exact absurd (congrArg HttpResponse.status hresp)
                (by simp [missingWorkflowSpecResponse])
            · exact absurd (congrArg HttpResponse.status hresp)
                (by simp [missingWorkflowSpecResponse])
    · intro hwf
      cases wrtcparams with
      | none => simp [initWebrtcHandler, hoffer.1, hoffer.2]
      | some wp =>
        simp only [workflowInvalid, Bool.not_eq_true'] at hwf
        simp [initWebrtcHandler, hoffer.1, hoffer.2, hwf]

/-- Witness for the amended claim C1 at a concrete input. -/
theorem c1_workflow_validation_amended_witness :
    offerInvalid reqWorkspaceOnly = false
    ∧ initWebrtcHandler envNoKey (fun _ => .error ⟨none⟩) reqWorkspaceOnly
        = missingWorkflowSpecResponse :=
  ⟨rfl, (c1_workflow_validation_amended envNoKey (fun _ => .error ⟨none⟩)
    reqWorkspaceOnly rfl).mpr rfl⟩

/-- Claim C2: for every request that passes both validation steps, when
the credential is configured and the vendor call resolves with an
answer, the endpoint responds with status 200 and exactly that answer
as body. -/
theorem c2_success_returns_vendor_answer (env : Env) (req : InitRequest) (answer : JsVal)
    (hvalid : requestValid req = true)
    (hkey : strTruthy env.ROBOFLOW_API_KEY = true) :
    initWebrtcHandler env (fun _ => .ok answer) req = ⟨200, answer⟩ := by
  obtain ⟨offer, wrtcparams, ho, hw, h1, h2, h3⟩ := (requestValid_iff req).mp hvalid
  obtain ⟨k, hk, hne⟩ := (strTruthy_iff _).mp hkey
  simp [initWebrtcHandler, ho, hw, h1, h2, h3, hk, hne]

/-- Witness for claim C2 at a concrete input: the vendor answer of the
documented `{sdp, type, context}` shape is returned unchanged. -/
theorem c2_success_returns_vendor_answer_witness :
    requestValid reqDemo = true
    ∧ strTruthy envDemo.ROBOFLOW_API_KEY = true
    ∧ initWebrtcHandler envDemo (fun _ => .ok answerDemo) reqDemo = ⟨200, answerDemo⟩ :=
  ⟨rfl, rfl, c2_success_returns_vendor_answer envDemo reqDemo answerDemo rfl rfl⟩

/-- Claim C3: whenever the offer is absent, or its `sdp` or `type` is
absent or empty (falsy), the endpoint returns the 400 offer error —
for every environment, vendor behaviour and workflow-parameter
content, so this check precedes the workflow-parameter and credential
checks; and the error message names the offer field. -/
theorem c3_offer_validation_first (env : Env)
    (vendor : VendorCall → Except JsError JsVal) (req : InitRequest)
    (h : offerInvalid req = true) :
    initWebrtcHandler env vendor req = missingOfferResponse
    ∧ missingOfferResponse.status = 400
    ∧ lookupField missingOfferResponse "error"
        = some (.str "Missing required field: offer with sdp and type")
    ∧ "Missing required field: offer with sdp and type"
        = "Missing required field: " ++ "offer" ++ " with sdp and type" := by
  refine ⟨?_, rfl, rfl, rfl⟩
  rcases req with ⟨offer, wrtcparams⟩
  cases offer with
  | none => simp [initWebrtcHandler]
  | some o =>
    simp only [offerInvalid] at h
    simp [initWebrtcHandler, h]

/-- Witness for claim C3: a request missing both the offer and the
workflow parameters, with no credential configured, receives the offer
error. -/
theorem c3_offer_validation_first_witness :
    offerInvalid ⟨none, none⟩ = true
    ∧ initWebrtcHandler envNoKey (fun _ => .error ⟨none⟩) ⟨none, none⟩
        = missingOfferResponse :=
  ⟨rfl, (c3_offer_validation_first envNoKey (fun _ => .error ⟨none⟩) ⟨none, none⟩ rfl).1⟩

/-- Claim C4: when the credential is not configured (unset or empty,
both falsy), a request that passes both validation steps receives the
fixed 500 configuration-error response — whose body is a constant that
cannot contain a credential value — and a request that fails
validation still receives a 400, so the credential check runs only
after both validation steps succeed. -/
theorem c4_missing_api_key_500 (env : Env)
    (vendor : VendorCall → Except JsError JsVal) (req : InitRequest)
    (hkey : strTruthy env.ROBOFLOW_API_KEY = false) :
    (requestValid req = true →
      initWebrtcHandler env vendor req = apiKeyNotConfiguredResponse)
    ∧ (requestValid req = false → (initWebrtcHandler env vendor req).status = 400) := by
  constructor
  · intro hvalid
    obtain ⟨offer, wrtcparams, ho, hw, h1, h2, h3⟩ := (requestValid_iff req).mp hvalid
    cases hk : env.ROBOFLOW_API_KEY with
    | none => simp [initWebrtcHandler, ho, hw, h1, h2, h3, hk]
    | some k =>
      rw [hk] at hkey
      simp only [strTruthy, decide_eq_false_iff_not, not_not] at hkey
      simp [initWebrtcHandler, ho, hw, h1, h2, h3, hk, hkey]
  · exact handler_invalid_status env vendor req

/-- Witness for claim C4 at a concrete input. -/
theorem c4_missing_api_key_500_witness :
    strTruthy envNoKey.ROBOFLOW_API_KEY = false
    ∧ requestValid reqDemo = true
    ∧ initWebrtcHandler envNoKey (fun _ => .ok answerDemo) reqDemo
        = apiKeyNotConfiguredResponse :=
  ⟨rfl, rfl,
    (c4_missing_api_key_500 envNoKey (fun _ => .ok answerDemo) reqDemo rfl).1 rfl⟩

/-- Claim C5: for every request that reaches the vendor call, a vendor
rejection with message "boom" yields status 500 with body
`{error: "boom"}`, and a rejection whose error has no message yields
status 500 with the fixed fallback string as the error field. -/
theorem c5_vendor_rejection_500 (env : Env) (req : InitRequest)
    (hvalid : requestValid req = true)
    (hkey : strTruthy env.ROBOFLOW_API_KEY = true) :
    initWebrtcHandler env (fun _ => .error ⟨some "boom"⟩) req = ⟨500, errorBody "boom"⟩
    ∧ ∀ e : JsError, e.message = none →
        initWebrtcHandler env (fun _ => .error e) req
          = ⟨500, errorBody vendorFallbackMessage⟩ := by
  obtain ⟨offer, wrtcparams, ho, hw, h1, h2, h3⟩ := (requestValid_iff req).mp hvalid
  obtain ⟨k, hk, hne⟩ := (strTruthy_iff _).mp hkey
  constructor
  · simp [initWebrtcHandler, ho, hw, h1, h2, h3, hk, hne]
  · intro e he
    simp [initWebrtcHandler, ho, hw, h1, h2, h3, hk, hne, he]

/-- Witness for claim C5 at a concrete input. -/
theorem c5_vendor_rejection_500_witness :
    requestValid reqDemo = true
    ∧ initWebrtcHandler envDemo (fun _ => .error ⟨some "boom"⟩) reqDemo
        = ⟨500, errorBody "boom"⟩
    ∧ initWebrtcHandler envDemo (fun _ => .error ⟨none⟩) reqDemo
        = ⟨500, errorBody vendorFallbackMessage⟩ :=
  ⟨rfl, (c5_vendor_rejection_500 envDemo reqDemo rfl rfl).1,
    (c5_vendor_rejection_500 envDemo reqDemo rfl rfl).2 ⟨none⟩ rfl⟩

/-- Claim C6: every `GET /api/health` response has status field `"ok"`,
its `apiKeyConfigured` field is `true` exactly when the credential
environment variable is set (to a non-empty value, the code using
JavaScript truthiness), and the whole response depends only on whether
the credential is configured — never on its value, so the body cannot
contain the credential. -/
theorem c6_health_endpoint (env₁ env₂ : Env)
    (h : strTruthy env₁.ROBOFLOW_API_KEY = strTruthy env₂.ROBOFLOW_API_KEY) :
    lookupField (healthHandler env₁) "status" = some (.str "ok")
    ∧ (lookupField (healthHandler env₁) "apiKeyConfigured" = some (.bool true) ↔
        strTruthy env₁.ROBOFLOW_API_KEY = true)
    ∧ healthHandler env₁ = healthHandler env₂ := by
  refine ⟨rfl, ?_, ?_⟩
  · cases hb : strTruthy env₁.ROBOFLOW_API_KEY <;>
      simp [healthHandler, lookupField, hb]
  · simp [healthHandler, h]

/-- Witness for claim C6: with no credential, `apiKeyConfigured` is not
`true`; the response is the same for any two credential-free
environments. -/
theorem c6_health_endpoint_witness :
    lookupField (healthHandler envNoKey) "status" = some (.str "ok")
    ∧ (lookupField (healthHandler envNoKey) "apiKeyConfigured" = some (.bool true) ↔
        strTruthy envNoKey.ROBOFLOW_API_KEY = true)
    ∧ healthHandler envNoKey = healthHandler ⟨none, some "https://example.test"⟩ :=
  c6_health_endpoint envNoKey ⟨none, some "https://example.test"⟩ rfl

/-- Claim C7, counterexample.  The claim asserts every offered fps
option lies within the reported min/max frame-rate bounds of the device.
For the report `capsFractional` (frame rate 29.5 to 29.75) the code
offers `Math.floor(29.75) = 29`, which is below the reported minimum
29.5. -/
theorem c7_fps_below_min_counterexample :
    capsFractional.frameRate = some ⟨some (59/2), some (119/4)⟩
    ∧ (29 : ℚ) ∈ populateFrameRates capsFractional
    ∧ ¬ ((59 : ℚ)/2 ≤ (29 : ℚ)) :=
  ⟨rfl, by rw [populateFrameRates_capsFractional]; exact List.mem_singleton.mpr rfl,
    by norm_num⟩

/-- Claim C7, amended.  For a capability report with all bounds present,
positive maxima and min ≤ max width- and height-wise: every
resolution option lies within the reported width and height bounds, and
every fps option is at most the reported maximum and is either at least
the reported minimum or is the extra `Math.floor(max)` option (which
can fall below the minimum only when the maximum is fractional). -/
theorem c7_options_within_bounds_amended (caps : Capabilities)
    (wmin wmax hmin hmax fmin fmax : ℚ)
    (hw : caps.width = some ⟨some wmin, some wmax⟩)
    (hh : caps.height = some ⟨some hmin, some hmax⟩)
    (hf : caps.frameRate = some ⟨some fmin, some fmax⟩)
    (hw1 : wmin ≤ wmax) (hw2 : 0 < wmax)
    (hh1 : hmin ≤ hmax) (hh2 : 0 < hmax)
    (hf2 : 0 < fmax) :
    (∀ r ∈ populateResolutions caps, wmin ≤ r.w ∧ r.w ≤ wmax ∧ hmin ≤ r.h ∧ r.h ≤ hmax)
    ∧ (∀ q ∈ populateFrameRates caps,
        q ≤ fmax ∧ (fmin ≤ q ∨ q = ((Rat.floor fmax : ℤ) : ℚ))) := by
  constructor
  · intro r hr
    rw [populateResolutions, hw, hh] at hr
    simp only [Option.some_bind] at hr
    simp only [jsOrNum_of_ne 1920 (ne_of_gt hw2), jsOrNum_of_ne 1080 (ne_of_gt hh2)] at hr
    set minW := jsOrNum (some wmin) 320 with hminW
    set minH := jsOrNum (some hmin) 240 with hminH
    have hminW1 : wmin ≤ minW := le_jsOrNum (by norm_num)
    have hminH1 : hmin ≤ minH := le_jsOrNum (by norm_num)
    set L1 := commonResolutions.filter
      (fun res => decide (minW ≤ res.w ∧ res.w ≤ wmax ∧ minH ≤ res.h ∧ res.h ≤ hmax)) with hL1
    have hmemL1 : ∀ x ∈ L1, wmin ≤ x.w ∧ x.w ≤ wmax ∧ hmin ≤ x.h ∧ x.h ≤ hmax := by
      intro x hx
      have hb := of_decide_eq_true (List.mem_filter.mp hx).2
      exact ⟨le_trans hminW1 hb.1, hb.2.1, le_trans hminH1 hb.2.2.1, hb.2.2.2⟩
    split at hr
    · simp only [List.isEmpty_cons, Bool.false_eq_true, if_false] at hr
      rcases List.mem_cons.mp hr with rfl | hr2
      · exact ⟨hw1, le_rfl, hh1, le_rfl⟩
      · exact hmemL1 r hr2
    · next hC =>
      split at hr
      · next hEmpty =>
        exfalso
        have hnil : L1 = [] := by simpa using hEmpty
        apply hC
        rw [hnil]
        simp [ne_of_gt hw2, ne_of_gt hh2]
      · exact hmemL1 r hr
  · intro q hq
    rw [populateFrameRates, hf] at hq
    simp only [Option.some_bind] at hq
    simp only [jsOrNum_of_ne 30 (ne_of_gt hf2)] at hq
    set minFps := jsOrNum (some fmin) 1 with hminFps
    have hminFps1 : fmin ≤ minFps := le_jsOrNum (by norm_num)
    set L1 := commonFps.filter (fun fps => decide (minFps ≤ fps ∧ fps ≤ fmax)) with hL1
    have hmemL1 : ∀ x ∈ L1, fmin ≤ x ∧ x ≤ fmax := by
      intro x hx
      have hb := of_decide_eq_true (List.mem_filter.mp hx).2
      exact ⟨le_trans hminFps1 hb.1, hb.2⟩
    split at hq
    · have hne : (sortDesc (((Rat.floor fmax : ℤ) : ℚ) :: L1)).isEmpty = false := by
        simp [List.isEmpty_iff, sortDesc_eq_nil_iff]
      rw [hne] at hq
      simp only [Bool.false_eq_true, if_false] at hq
      rw [mem_sortDesc] at hq
      rcases List.mem_cons.mp hq with rfl | hq2
      · exact ⟨rat_cast_floor_le fmax, Or.inr rfl⟩
      · have hb := hmemL1 q hq2
        exact ⟨hb.2, Or.inl hb.1⟩
    · next hC =>
      split at hq
      · next hEmpty =>
        exfalso
        rw [List.isEmpty_iff, sortDesc_eq_nil_iff] at hEmpty
        apply hC
        rw [hEmpty]
        simp [hf2]
      · rw [mem_sortDesc] at hq
        have hb := hmemL1 q hq
        exact ⟨hb.2, Or.inl hb.1⟩

/-- Witness for the amended claim C7 at the concrete report `capsNice`:
the offered option 1280 by 720 lies within the width and height
bounds, and the offered option 30 fps satisfies the amended fps
bound. -/
theorem c7_options_within_bounds_amended_witness :
    capsNice.frameRate = some ⟨some 1, some 30⟩
    ∧ ((320 : ℚ) ≤ 1280 ∧ (1280 : ℚ) ≤ 1920 ∧ (240 : ℚ) ≤ 720 ∧ (720 : ℚ) ≤ 1080)
    ∧ ((30 : ℚ) ≤ 30 ∧ ((1 : ℚ) ≤ 30 ∨ (30 : ℚ) = ((Rat.floor (30 : ℚ) : ℤ) : ℚ))) := by
  refine ⟨rfl, ?_, ?_⟩
  · exact (c7_options_within_bounds_amended capsNice 320 1920 240 1080 1 30
      rfl rfl rfl (by norm_num) (by norm_num) (by norm_num) (by norm_num)
      (by norm_num)).1 ⟨1280, 720⟩ (by rw [populateResolutions_capsNice]; simp)
  · exact (c7_options_within_bounds_amended capsNice 320 1920 240 1080 1 30
      rfl rfl rfl (by norm_num) (by norm_num) (by norm_num) (by norm_num)
      (by norm_num)).2 30 (by rw [populateFrameRates_capsNice]; simp)

/-- Claim C8: `start` on a state with a non-null active connection
performs no connect call and leaves the state unchanged; consequently,
after a successful `start` from the idle state the connection is
non-null and a second `start` without an intervening `stop` performs
no connect call and changes nothing. -/
theorem c8_start_noop_when_active (connectOutcome : Except String Connection)
    (remoteStreamOutcome : Except String MediaStream) (s : UIState) :
    (s.activeConnection.isSome = true →
      start connectOutcome remoteStreamOutcome s = (s, false))
    ∧ (∀ connection stream, s.activeConnection = none →
        ((start (.ok connection) (.ok stream) s).1.activeConnection.isSome = true
        ∧ ∀ co₂ rso₂, start co₂ rso₂ (start (.ok connection) (.ok stream) s).1
            = ((start (.ok connection) (.ok stream) s).1, false))) := by
  have noop : ∀ (co : Except String Connection) (rso : Except String MediaStream)
      (t : UIState), t.activeConnection.isSome = true → start co rso t = (t, false) := by
    intro co rso t ht
    simp [start, ht]
  refine ⟨noop connectOutcome remoteStreamOutcome s, ?_⟩
  intro connection stream hnone
  have h2 : (start (.ok connection) (.ok stream) s).1.activeConnection.isSome = true := by
    simp [start, hnone]
  exact ⟨h2, fun co₂ rso₂ => noop co₂ rso₂ _ h2⟩

/-- Witness for claim C8: on a connected state a `start` is a no-op
that performs no connect, and a successful `start` from idle leaves a
non-null connection. -/
theorem c8_start_noop_when_active_witness :
    start (Except.ok ⟨2⟩) (Except.ok ⟨8⟩) uiConnected = (uiConnected, false)
    ∧ (start (Except.ok ⟨2⟩) (Except.ok ⟨8⟩) uiIdle).1.activeConnection.isSome = true :=
  ⟨(c8_start_noop_when_active (Except.ok ⟨2⟩) (Except.ok ⟨8⟩) uiConnected).1 rfl,
    ((c8_start_noop_when_active (Except.ok ⟨2⟩) (Except.ok ⟨8⟩) uiIdle).2 ⟨2⟩ ⟨8⟩ rfl).1⟩

/-- Claim C9: `stop` on a state with a non-null active connection
always ends with the connection cleared, the video source cleared, the
start control enabled, the stop control disabled, status Idle and the
data-preview counters reset — and the result does not depend on
whether the cleanup call resolved or rejected (a rejection is caught
and only logged). -/
theorem c9_stop_resets_ui (cleanupOutcome : Except String Unit) (s : UIState)
    (h : s.activeConnection.isSome = true) :
    (stop cleanupOutcome s).activeConnection = none
    ∧ (stop cleanupOutcome s).videoSrcObject = none
    ∧ (stop cleanupOutcome s).startBtnDisabled = false
    ∧ (stop cleanupOutcome s).stopBtnDisabled = true
    ∧ (stop cleanupOutcome s).statusText = "Idle"
    ∧ (stop cleanupOutcome s).dataMessageCount = 0
    ∧ (stop cleanupOutcome s).dataCountText = "0"
    ∧ (stop cleanupOutcome s).dataPreviewText = ""
    ∧ (∀ cleanupOutcome₂, stop cleanupOutcome₂ s = stop cleanupOutcome s) := by
  have hnone : s.activeConnection.isNone = false := by
    cases hc : s.activeConnection <;> simp_all
  refine ⟨?_, ?_, ?_, ?_, ?_, ?_, ?_, ?_, ?_⟩ <;> simp [stop, hnone]

/-- Witness for claim C9: stopping the connected state with a rejecting
cleanup still resets the UI, identically to a resolving cleanup. -/
theorem c9_stop_resets_ui_witness :
    (stop (Except.error "cleanup failed") uiConnected).statusText = "Idle"
    ∧ (stop (Except.error "cleanup failed") uiConnected).activeConnection = none
    ∧ (stop (Except.error "cleanup failed") uiConnected).dataCountText = "0"
    ∧ stop (Except.ok ()) uiConnected = stop (Except.error "cleanup failed") uiConnected := by
  have h := c9_stop_resets_ui (Except.error "cleanup failed") uiConnected rfl
  exact ⟨h.2.2.2.2.1, h.1, h.2.2.2.2.2.2.1, h.2.2.2.2.2.2.2.2 (Except.ok ())⟩

/-- Claim C10: the handler returns 400 exactly when validation fails,
and `requestValid` reads only the presence (truthiness) of `offer.sdp`,
`offer.type` and `wrtcparams.workflowSpec` — so a missing auxiliary
field never causes a 400; and for a valid request with a configured
credential the vendor call receives the auxiliary fields exactly as
they are in the request, absent ones included (as `undefined`). -/
theorem c10_validation_ignores_aux_fields (env : Env)
    (vendor : VendorCall → Except JsError JsVal) (req : InitRequest) :
    ((initWebrtcHandler env vendor req).status = 400 ↔ requestValid req = false)
    ∧ (∀ wrtcparams, req.wrtcparams = some wrtcparams → requestValid req = true →
        strTruthy env.ROBOFLOW_API_KEY = true →
        initWebrtcHandler env (fun c => .ok (configProbe c.config)) req
          = ⟨200, configProbe ⟨wrtcparams.imageInputName, wrtcparams.streamOutputNames,
              wrtcparams.dataOutputNames, wrtcparams.workflowParameters,
              wrtcparams.threadPoolWorkers⟩⟩) := by
  constructor
  · constructor
    · intro h400
      by_contra hvalid
      rw [Bool.not_eq_false] at hvalid
      exact handler_valid_status_ne_400 env vendor req hvalid h400
    · exact handler_invalid_status env vendor req
  · intro wrtcparams hwp hvalid hkey
    obtain ⟨offer, wp2, ho, hw2, h1, h2, h3⟩ := (requestValid_iff req).mp hvalid
    rw [hwp] at hw2
    obtain rfl : wrtcparams = wp2 := by injection hw2
    obtain ⟨k, hk, hne⟩ := (strTruthy_iff _).mp hkey
    simp [initWebrtcHandler, ho, hwp, h1, h2, h3, hk, hne]

/-- Witness for claim C10: `reqDemo` has every auxiliary field absent,
is not rejected with 400, and the vendor call receives all five
auxiliary fields as `undefined`. -/
theorem c10_validation_ignores_aux_fields_witness :
    wrtcparamsDemo.imageInputName = none
    ∧ wrtcparamsDemo.threadPoolWorkers = none
    ∧ ((initWebrtcHandler envDemo (fun _ => .ok answerDemo) reqDemo).status = 400 ↔
        requestValid reqDemo = false)
    ∧ initWebrtcHandler envDemo (fun c => .ok (configProbe c.config)) reqDemo
        = ⟨200, configProbe ⟨none, none, none, none, none⟩⟩ :=
  ⟨rfl, rfl,
    (c10_validation_ignores_aux_fields envDemo (fun _ => .ok answerDemo) reqDemo).1,
    (c10_validation_ignores_aux_fields envDemo (fun _ => .ok answerDemo) reqDemo).2
      wrtcparamsDemo rfl rfl rfl⟩

end SampleApp
